import Mathlib

/-!
Shallow embedding of `scripts/clip_interrogator_ext.py` (clip-interrogator-ext).

The module keeps a process-wide singleton `ci` (an `Interrogator` instance or
`None`) and exposes `load`, `unload`, `image_analysis` and `image_to_prompt`.
External collaborators (torch, the clip_interrogator library, and the host
`shared`/`devices`/`lowvram` modules) are modelled as explicit parameters:
read-only host facts as a `Host` record, the fallible library routines of the
loaded engine as function-valued records.  Side effects on the external world
(prints, job begin/end, gc, offload requests, model construction/reload) are
recorded as an emitted list of `Event`s so that ordering and pairing claims
can be stated; Python exceptions are modelled with `Except`.
-/

/-- A torch device, as far as this extension observes it: the optimal
(accelerator) device returned by `devices.get_optimal_device()`, or
`devices.cpu`. -/
inductive Device
  | gpu
  | cpu
deriving DecidableEq, Repr, Inhabited

/-- The host launch flags read by the extension
(`shared.cmd_opts.lowvram`, `shared.cmd_opts.medvram`). -/
structure CmdOpts where
  lowvram : Bool
  medvram : Bool
deriving DecidableEq, Repr

/-- Read-only facts about the host runtime used by `load` and
`image_to_prompt`: the launch flags, `torch.cuda.is_available()`, and
`torch.cuda.get_device_properties(device).total_memory` in bytes for the
optimal device. -/
structure Host where
  cmd_opts : CmdOpts
  cuda_available : Bool
  vram_total : Nat
deriving DecidableEq, Repr

/-- The observable state of the resident `Interrogator` instance: identity of
the constructed object, its `config.clip_model_name` and `config.cache_path`,
whether `apply_low_vram_defaults()` was applied to its config, and the device
placement / offloaded flags touched by `unload`. -/
structure Engine where
  id : Nat
  clip_model_name : String
  cache_path : String
  low_vram_defaults : Bool
  blip_device : Device
  clip_device : Device
  blip_offloaded : Bool
  clip_offloaded : Bool
deriving DecidableEq, Repr

/-- The module-level mutable state: the singleton `ci` and a counter supplying
identities for constructed `Interrogator` objects (so that constructions can
be counted and instances distinguished). -/
structure Session where
  ci : Option Engine
  nextId : Nat
deriving DecidableEq, Repr

/-- Externally visible actions the extension performs, in program order. -/
inductive Event
  | printMsg (s : String)
  | applyLowVramDefaults
  | constructInterrogator (id : Nat) (model : String)
  | loadClipModel (model : String)
  | sendEverythingToCpu
  | torchGc
  | stateBegin
  | setJob (j : String)
  | stateEnd
deriving DecidableEq, Repr, Inhabited

/-- Events that load the interrogation engine (constructing the
`Interrogator`, or reloading its vision model). -/
def Event.isEngineLoad : Event → Bool
  | .constructInterrogator _ _ => true
  | .loadClipModel _ => true
  | _ => false

/-- The `low_vram` decision made by `load` when no engine is resident:
`low_vram = shared.cmd_opts.lowvram or shared.cmd_opts.medvram`, then if not
set and cuda is available and the total memory of the device is below
`12*1024*1024*1024`, set it. -/
def decideLowVram (host : Host) : Bool :=
  let low_vram := host.cmd_opts.lowvram || host.cmd_opts.medvram
  if !low_vram && host.cuda_available then
    if host.vram_total < 12*1024*1024*1024 then true else low_vram
  else low_vram

/-- The engine built by the `ci is None` branch of `load`: a fresh
`Interrogator` whose config carries the requested model name, the fixed cache
path, and the decided low-VRAM profile; weights start on the optimal
(accelerator) device with no offloaded flags set. -/
def constructEngine (host : Host) (clip_model_name : String) (nid : Nat) :
    Engine :=
  { id := nid
    clip_model_name := clip_model_name
    cache_path := "models/clip-interrogator"
    low_vram_defaults := decideLowVram host
    blip_device := Device.gpu
    clip_device := Device.gpu
    blip_offloaded := false
    clip_offloaded := false }

/-- The events emitted by the `ci is None` branch of `load`: the loading
print, the optional detection print, the optional
`config.apply_low_vram_defaults()`, and the `Interrogator(config)`
construction. -/
def constructEvents (host : Host) (clip_model_name : String) (nid : Nat) :
    List Event :=
  [Event.printMsg "Loading CLIP Interrogator..."] ++
  (if !(host.cmd_opts.lowvram || host.cmd_opts.medvram) &&
      host.cuda_available && decide (host.vram_total < 12*1024*1024*1024) then
    [Event.printMsg "    detected < 12GB VRAM, using low VRAM mode"]
  else []) ++
  (if decideLowVram host then [Event.applyLowVramDefaults] else []) ++
  [Event.constructInterrogator nid clip_model_name]

/-- Embeds `load(clip_model_name)` (lines 14-34): if `ci is None`, decide
low-VRAM mode, build the config (applying `apply_low_vram_defaults` when
low-VRAM) and construct the `Interrogator`; afterwards, if the requested
model name differs from `ci.config.clip_model_name`, mutate the config in
place and call `ci.load_clip_model()`.  Returns the new state and the
emitted events. -/
def load (host : Host) (clip_model_name : String) (s : Session) :
    Session × List Event :=
  let first : Session × List Event :=
    match s.ci with
    | none =>
      ({ ci := some (constructEngine host clip_model_name s.nextId)
         nextId := s.nextId + 1 },
        constructEvents host clip_model_name s.nextId)
    | some _ => (s, [])
  match first.1.ci with
  | some e =>
    if clip_model_name ≠ e.clip_model_name then
      ({ first.1 with
          ci := some { e with clip_model_name := clip_model_name } },
        first.2 ++ [Event.loadClipModel clip_model_name])
    else first
  | none => first

/-- Embeds `unload()` (lines 36-44): if `ci` is resident, move `blip_model` and
`clip_model` to `devices.cpu`, set both offloaded flags, and run
`devices.torch_gc()`; otherwise do nothing. -/
def unload (s : Session) : Session × List Event :=
  match s.ci with
  | none => (s, [])
  | some e =>
    ({ s with ci := some { e with
        blip_device := Device.cpu
        clip_device := Device.cpu
        blip_offloaded := true
        clip_offloaded := true } },
      [Event.printMsg "Offloading CLIP Interrogator...", Event.torchGc])

/-- A PIL image as far as the extension observes it: some content plus the
color mode which the RGB `image.convert` call normalizes. -/
structure PILImage where
  data : Nat
  mode : String
deriving DecidableEq, Repr, Inhabited

/-- Python exceptions as the two except clauses distinguish them:
`torch.cuda.OutOfMemoryError`, any other `RuntimeError` (carrying the
class name that `type(e)` renders), and every other exception class
(matched by neither handler). -/
inductive Exc
  | cudaOOM (msg : String)
  | runtimeError (tyName msg : String)
  | otherError (tyName msg : String)
deriving DecidableEq, Repr

/-- The message `print(e)` would log for an exception. -/
def Exc.msg : Exc → String
  | .cudaOOM m => m
  | .runtimeError _ m => m
  | .otherError _ m => m

/-- The fallible external calls made inside the try block of
`image_to_prompt`: the RGB `image.convert` call (PIL) and the four
interrogation routines of the
resident engine (`ci.interrogate`, `ci.interrogate_classic`,
`ci.interrogate_fast`, `ci.interrogate_negative`), each of which may raise. -/
structure World where
  host : Host
  convert : PILImage → Except Exc PILImage
  interrogate : PILImage → Except Exc String
  interrogate_classic : PILImage → Except Exc String
  interrogate_fast : PILImage → Except Exc String
  interrogate_negative : PILImage → Except Exc String

/-- The `if/elif` dispatch on `mode` (lines 82-89).  A mode outside the four
recognized values matches no branch and leaves the local `prompt` unassigned,
modelled as `none`. -/
def dispatch (w : World) (mode : String) (image : PILImage) :
    Except Exc (Option String) :=
  if mode = "best" then (w.interrogate image).map some
  else if mode = "classic" then (w.interrogate_classic image).map some
  else if mode = "fast" then (w.interrogate_fast image).map some
  else if mode = "negative" then (w.interrogate_negative image).map some
  else Except.ok none

/-- The body of the try block of `image_to_prompt` (lines 73-89): the
low-VRAM offload+gc, the `load` call, the RGB `image.convert` call, and the
mode dispatch.  Returns the session state and events up to the point of normal
completion or raise, and either the (possibly unassigned) `prompt` or the
escaping exception. -/
def tryBody (w : World) (image : PILImage) (mode clip_model_name : String)
    (s : Session) : Session × List Event × Except Exc (Option String) :=
  let ev1 : List Event :=
    if w.host.cmd_opts.lowvram || w.host.cmd_opts.medvram then
      [Event.sendEverythingToCpu, Event.torchGc]
    else []
  let ls := load w.host clip_model_name s
  let ev := ev1 ++ ls.2
  match w.convert image with
  | .error e => (ls.1, ev, .error e)
  | .ok image => (ls.1, ev, dispatch w mode image)

/-- Embeds the framing of `image_to_prompt` around the try block:
`shared.state.begin()` and setting `shared.state.job` to interrogate at
entry, the two except clauses on the try result (`torch.cuda.OutOfMemoryError`
→ the sentinel string Ran out of VRAM; `RuntimeError` → the word Exception
followed by the class name that `type(e)` renders, each also printing the
error), then `shared.state.end()` and `return prompt`.
`shared.state.end()` stands after the try/except statement, so it runs only
when no exception escaped the handlers; `return prompt` with `prompt` never
assigned raises `UnboundLocalError`, modelled as `.error (.otherError ...)`
after the end signal. -/
def finishPrompt (t : Session × List Event × Except Exc (Option String)) :
    Session × List Event × Except Exc String :=
  let ev0 := [Event.stateBegin, Event.setJob "interrogate"]
  match t.2.2 with
  | .ok (some prompt) =>
    (t.1, ev0 ++ t.2.1 ++ [Event.stateEnd], .ok prompt)
  | .ok none =>
    (t.1, ev0 ++ t.2.1 ++ [Event.stateEnd],
      .error (.otherError "UnboundLocalError"
        "local variable prompt referenced before assignment"))
  | .error (.cudaOOM m) =>
    (t.1, ev0 ++ t.2.1 ++ [Event.printMsg m, Event.stateEnd],
      .ok "Ran out of VRAM")
  | .error (.runtimeError ty m) =>
    (t.1, ev0 ++ t.2.1 ++ [Event.printMsg m, Event.stateEnd],
      .ok ("Exception " ++ ty))
  | .error e => (t.1, ev0 ++ t.2.1, .error e)

/-- Embeds `image_to_prompt(image, mode, clip_model_name)` (lines 69-98):
the begin/job signals, the try block (`tryBody`), the except clauses, the
end signal and the return statement (`finishPrompt`). -/
def image_to_prompt (w : World) (image : PILImage)
    (mode clip_model_name : String) (s : Session) :
    Session × List Event × Except Exc String :=
  finishPrompt (tryBody w image mode clip_model_name s)

/-- Feature embeddings returned by `ci.image_to_features`. -/
abbrev Features := List Int

/-- The external analysis methods of the resident engine used by
`image_analysis`: feature extraction, the per-category `LabelTable.rank`
calls, and `ci.similarities`. -/
structure Analyzer where
  image_to_features : PILImage → Features
  mediums_rank : Features → Nat → List String
  artists_rank : Features → Nat → List String
  movements_rank : Features → Nat → List String
  trendings_rank : Features → Nat → List String
  flavors_rank : Features → Nat → List String
  similarities : Features → List String → List Int

/-- The RGB `image.convert` call on an in-memory image: same content, RGB
mode. -/
def convertRGB (image : PILImage) : PILImage := { image with mode := "RGB" }

/-- One ranking of `image_analysis`: the dict comprehension zipping the
shortlisted labels with `ci.similarities(image_features, top_labels)`, as an
association list in insertion order. -/
def rankDict (a : Analyzer) (f : Features) (top : List String) :
    List (String × Int) :=
  top.zip (a.similarities f top)

/-- Embeds `image_analysis(image, clip_model_name)` (lines 49-67): `load`, normalize
the image to RGB, compute the image features once, take the top 5 of each of
the five label tables, and score exactly those shortlists with
`ci.similarities`.  Returns the session state, the emitted events, and the
five label→score mappings. -/
def image_analysis (host : Host) (a : Analyzer) (image : PILImage)
    (clip_model_name : String) (s : Session) :
    Session × List Event ×
      (List (String × Int) × List (String × Int) × List (String × Int) ×
        List (String × Int) × List (String × Int)) :=
  let ls := load host clip_model_name s
  let image := convertRGB image
  let image_features := a.image_to_features image
  let top_mediums := a.mediums_rank image_features 5
  let top_artists := a.artists_rank image_features 5
  let top_movements := a.movements_rank image_features 5
  let top_trendings := a.trendings_rank image_features 5
  let top_flavors := a.flavors_rank image_features 5
  (ls.1, ls.2,
    rankDict a image_features top_mediums,
    rankDict a image_features top_artists,
    rankDict a image_features top_movements,
    rankDict a image_features top_trendings,
    rankDict a image_features top_flavors)

/-! ### Concrete stub hosts, images, sessions and providers, used to
evaluate the embedding on closed inputs. -/

/-- A host with no low/medium-VRAM launch flag and a 8 GiB accelerator. -/
def host0 : Host :=
  { cmd_opts := { lowvram := false, medvram := false }
    cuda_available := true
    vram_total := 8*1024*1024*1024 }

/-- A host launched with the low-VRAM flag and a 24 GiB accelerator. -/
def hostLow : Host :=
  { cmd_opts := { lowvram := true, medvram := false }
    cuda_available := true
    vram_total := 24*1024*1024*1024 }

/-- A small non-RGB test image. -/
def img0 : PILImage := { data := 7, mode := "RGBA" }

/-- The initial module state: `ci = None`. -/
def session0 : Session := { ci := none, nextId := 0 }

/-- A provider whose conversion succeeds and whose four interrogation
routines all answer with a fixed caption. -/
def okWorld : World :=
  { host := host0
    convert := fun i => .ok (convertRGB i)
    interrogate := fun _ => .ok "a photo of a cat"
    interrogate_classic := fun _ => .ok "a photo of a cat"
    interrogate_fast := fun _ => .ok "a photo of a cat"
    interrogate_negative := fun _ => .ok "a photo of a cat" }

/-- Like `okWorld`, but the fast routine raises a `TypeError`, an exception
class matched by neither except clause. -/
def crashWorld : World :=
  { okWorld with
    interrogate_fast := fun _ =>
      .error (.otherError "TypeError" "unsupported operand type") }

/-- Like `okWorld`, but the fast routine raises
`torch.cuda.OutOfMemoryError`. -/
def oomWorld : World :=
  { okWorld with
    interrogate_fast := fun _ => .error (.cudaOOM "CUDA out of memory") }

/-- Like `okWorld`, but the fast routine raises a plain `RuntimeError`. -/
def rteWorld : World :=
  { okWorld with
    interrogate_fast := fun _ =>
      .error (.runtimeError "RuntimeError"
        "mat1 and mat2 shapes cannot be multiplied") }

/-- Like `okWorld`, but on the low-VRAM-flagged host. -/
def lowWorld : World := { okWorld with host := hostLow }

/-! ### Helper lemmas about `load`, `tryBody` and `finishPrompt`. -/

/-- Evaluation of `load` when no engine is resident: a fresh engine is
constructed and no model reload happens (the fresh engine is already bound
to the requested name). -/
lemma load_fresh (host : Host) (m : String) (s : Session) (h : s.ci = none) :
    load host m s =
      ({ ci := some (constructEngine host m s.nextId)
         nextId := s.nextId + 1 },
        constructEvents host m s.nextId) := by
  simp [load, h, constructEngine]

/-- Evaluation of `load` when an engine is resident: nothing is constructed;
a differing requested name mutates the bound name in place and reloads the
clip model, an equal one is a no-op. -/
lemma load_resident (host : Host) (m : String) (s : Session) (e : Engine)
    (h : s.ci = some e) :
    load host m s =
      if m ≠ e.clip_model_name then
        ({ s with ci := some { e with clip_model_name := m } },
          [Event.loadClipModel m])
      else (s, []) := by
  simp only [load, h]
  split <;> simp

/-- After any `load`, exactly one engine is resident and it is bound to the
requested model name. -/
lemma load_binds (host : Host) (m : String) (s : Session) :
    ∃ e, (load host m s).1.ci = some e ∧ e.clip_model_name = m := by
  rcases h : s.ci with _ | e0
  · rw [load_fresh host m s h]
    exact ⟨constructEngine host m s.nextId, rfl, rfl⟩
  · rw [load_resident host m s e0 h]
    by_cases hm : m = e0.clip_model_name
    · simp [hm]
      exact ⟨e0, h, rfl⟩
    · simp [hm]

/-- The state component of `tryBody` is the state after `load`. -/
lemma tryBody_fst (w : World) (image : PILImage) (mode name : String)
    (s : Session) :
    (tryBody w image mode name s).1 = (load w.host name s).1 := by
  unfold tryBody
  rcases w.convert image with e | i <;> simp

/-- The events of `tryBody`: the optional offload+gc pair, then the events
of `load`; the conversion and dispatch steps emit nothing themselves. -/
lemma tryBody_events (w : World) (image : PILImage) (mode name : String)
    (s : Session) :
    (tryBody w image mode name s).2.1 =
      (if w.host.cmd_opts.lowvram || w.host.cmd_opts.medvram then
        [Event.sendEverythingToCpu, Event.torchGc]
      else []) ++ (load w.host name s).2 := by
  unfold tryBody
  rcases w.convert image with e | i <;> simp

/-- The try outcome of `tryBody`: the conversion result fed to the mode
dispatch. -/
lemma tryBody_result (w : World) (image : PILImage) (mode name : String)
    (s : Session) :
    (tryBody w image mode name s).2.2 =
      match w.convert image with
      | .error e => .error e
      | .ok i => dispatch w mode i := by
  unfold tryBody
  rcases w.convert image with e | i <;> simp

/-- The events of `finishPrompt`: the begin/job prefix, the try-block
events, and a tail of print/end signals that never loads the engine. -/
lemma finishPrompt_events (t : Session × List Event × Except Exc (Option String)) :
    ∃ tail, (finishPrompt t).2.1 =
      [Event.stateBegin, Event.setJob "interrogate"] ++ t.2.1 ++ tail ∧
      ∀ e ∈ tail, e.isEngineLoad = false := by
  rcases t with ⟨s2, ev2, r⟩
  rcases r with e | p
  · rcases e with m | ⟨ty, m⟩ | ⟨ty, m⟩
    · exact ⟨[Event.printMsg m, Event.stateEnd], by simp [finishPrompt],
        by simp [Event.isEngineLoad]⟩
    · exact ⟨[Event.printMsg m, Event.stateEnd], by simp [finishPrompt],
        by simp [Event.isEngineLoad]⟩
    · exact ⟨[], by simp [finishPrompt], by simp⟩
  · rcases p with _ | prompt
    · exact ⟨[Event.stateEnd], by simp [finishPrompt],
        by simp [Event.isEngineLoad]⟩
    · exact ⟨[Event.stateEnd], by simp [finishPrompt],
        by simp [Event.isEngineLoad]⟩

/-- Characterization of the `low_vram` decision as flags-or-detection. -/
lemma decideLowVram_iff (host : Host) :
    decideLowVram host = true ↔
      (host.cmd_opts.lowvram || host.cmd_opts.medvram) = true ∨
      ((host.cmd_opts.lowvram || host.cmd_opts.medvram) = false ∧
        host.cuda_available = true ∧
        host.vram_total < 12*1024*1024*1024) := by
  unfold decideLowVram
  cases hl : host.cmd_opts.lowvram <;> cases hm : host.cmd_opts.medvram <;>
    cases hc : host.cuda_available <;>
      by_cases hv : host.vram_total < 12*1024*1024*1024 <;>
        simp [hl, hm, hc, hv]

/-- C5: when `load` is called with no engine resident, the constructed
engine runs in low-VRAM mode exactly when the host launch flags request
low/medium VRAM, or no flag is set, an accelerator is available and its
total memory is strictly below 12 GiB; and when low-VRAM mode holds, the
reduced-memory profile (`apply_low_vram_defaults`) is applied strictly
before the engine construction. -/
theorem load_low_vram_decision (host : Host) (m : String) (s : Session)
    (h : s.ci = none) :
    ∃ e, (load host m s).1.ci = some e ∧
      (e.low_vram_defaults = true ↔
        (host.cmd_opts.lowvram || host.cmd_opts.medvram) = true ∨
        ((host.cmd_opts.lowvram || host.cmd_opts.medvram) = false ∧
          host.cuda_available = true ∧
          host.vram_total < 12*1024*1024*1024)) ∧
      (e.low_vram_defaults = true →
        ∃ i j, i < j ∧
          (load host m s).2.get? i = some Event.applyLowVramDefaults ∧
          (load host m s).2.get? j =
            some (Event.constructInterrogator e.id m)) := by
  rw [load_fresh host m s h]
  refine ⟨constructEngine host m s.nextId, rfl, ?_, ?_⟩
  · simpa [constructEngine] using decideLowVram_iff host
  · intro hlow
    have hlow2 : decideLowVram host = true := by
      simpa [constructEngine] using hlow
    unfold constructEvents
    rw [hlow2]
    cases hb : (!(host.cmd_opts.lowvram || host.cmd_opts.medvram) &&
        host.cuda_available && decide (host.vram_total < 12*1024*1024*1024))
    · exact ⟨1, 2, by omega, rfl, rfl⟩
    · exact ⟨2, 3, by omega, rfl, rfl⟩

/-- Witness for C5 at a concrete host (low-VRAM flag set) and the initial
session. -/
theorem load_low_vram_decision_witness :
    session0.ci = none ∧
    ∃ e, (load hostLow "ViT-L-14/openai" session0).1.ci = some e ∧
      (e.low_vram_defaults = true ↔
        (hostLow.cmd_opts.lowvram || hostLow.cmd_opts.medvram) = true ∨
        ((hostLow.cmd_opts.lowvram || hostLow.cmd_opts.medvram) = false ∧
          hostLow.cuda_available = true ∧
          hostLow.vram_total < 12*1024*1024*1024)) ∧
      (e.low_vram_defaults = true →
        ∃ i j, i < j ∧
          (load hostLow "ViT-L-14/openai" session0).2.get? i =
            some Event.applyLowVramDefaults ∧
          (load hostLow "ViT-L-14/openai" session0).2.get? j =
            some (Event.constructInterrogator e.id "ViT-L-14/openai")) :=
  ⟨rfl, load_low_vram_decision hostLow "ViT-L-14/openai" session0 rfl⟩

/-- C6: loading `m1` and then a different `m2` leaves exactly one engine
resident, bound to `m2`; the second call keeps the same engine instance
(same identity, only the bound name mutated), constructs nothing (the
construction counter is unchanged), and emits exactly the vision-model
reload. -/
theorem load_switch_model_single_engine (host : Host) (m1 m2 : String)
    (s : Session) (h : m1 ≠ m2) :
    ∃ e1, (load host m1 s).1.ci = some e1 ∧ e1.clip_model_name = m1 ∧
      (load host m2 (load host m1 s).1).1.ci =
        some { e1 with clip_model_name := m2 } ∧
      (load host m2 (load host m1 s).1).1.nextId =
        (load host m1 s).1.nextId ∧
      (load host m2 (load host m1 s).1).2 = [Event.loadClipModel m2] := by
  obtain ⟨e1, h1, h1n⟩ := load_binds host m1 s
  have hm : m2 ≠ e1.clip_model_name := by
    rw [h1n]
    exact Ne.symm h
  rw [load_resident host m2 (load host m1 s).1 e1 h1]
  refine ⟨e1, h1, h1n, ?_, ?_, ?_⟩ <;> simp [hm]

/-- Witness for C6 at two concrete distinct model names on the initial
session. -/
theorem load_switch_model_single_engine_witness :
    ("ViT-L-14/openai" : String) ≠ "ViT-H-14/laion2b_s32b_b79k" ∧
    ∃ e1, (load host0 "ViT-L-14/openai" session0).1.ci = some e1 ∧
      e1.clip_model_name = "ViT-L-14/openai" ∧
      (load host0 "ViT-H-14/laion2b_s32b_b79k"
        (load host0 "ViT-L-14/openai" session0).1).1.ci =
        some { e1 with clip_model_name := "ViT-H-14/laion2b_s32b_b79k" } ∧
      (load host0 "ViT-H-14/laion2b_s32b_b79k"
        (load host0 "ViT-L-14/openai" session0).1).1.nextId =
        (load host0 "ViT-L-14/openai" session0).1.nextId ∧
      (load host0 "ViT-H-14/laion2b_s32b_b79k"
        (load host0 "ViT-L-14/openai" session0).1).2 =
        [Event.loadClipModel "ViT-H-14/laion2b_s32b_b79k"] :=
  ⟨by decide, load_switch_model_single_engine host0 _ _ session0 (by decide)⟩

/-- C7: `unload` is idempotent on the session state — a second call leaves
the state of the first call unchanged — and total: with no engine resident
it is a complete no-op. -/
theorem unload_idempotent_total (s : Session) :
    (unload (unload s).1).1 = (unload s).1 ∧
    (s.ci = none → unload s = (s, [])) := by
  rcases h : s.ci with _ | e
  · exact ⟨by simp [unload, h], fun _ => by simp [unload, h]⟩
  · exact ⟨by simp [unload, h], fun hn => by simp [h] at hn⟩

/-- Witness for C7: a session holding a freshly loaded engine, and the
empty session for the no-op half. -/
theorem unload_idempotent_total_witness :
    (unload (unload (load host0 "ViT-L-14/openai" session0).1).1).1 =
      (unload (load host0 "ViT-L-14/openai" session0).1).1 ∧
    (session0.ci = none → unload session0 = (session0, [])) :=
  ⟨(unload_idempotent_total (load host0 "ViT-L-14/openai" session0).1).1,
    (unload_idempotent_total session0).2⟩

/-- C10: after `unload` offloads a resident engine, `load` with the bound
model name changes nothing (same state, no events): the engine stays
resident with its identity, its weights stay on host memory and the
offloaded flags stay set; only a differing model name triggers the
vision-model reload. -/
theorem load_same_model_after_unload_noop (host : Host) (s : Session)
    (e : Engine) (h : s.ci = some e) :
    load host e.clip_model_name (unload s).1 = ((unload s).1, []) ∧
    (∃ e2, (unload s).1.ci = some e2 ∧ e2.id = e.id ∧
      e2.clip_model_name = e.clip_model_name ∧
      e2.blip_device = Device.cpu ∧ e2.clip_device = Device.cpu ∧
      e2.blip_offloaded = true ∧ e2.clip_offloaded = true) ∧
    (∀ m2, m2 ≠ e.clip_model_name →
      (load host m2 (unload s).1).2 = [Event.loadClipModel m2]) := by
  have hu : (unload s).1.ci = some { e with
      blip_device := Device.cpu
      clip_device := Device.cpu
      blip_offloaded := true
      clip_offloaded := true } := by
    simp [unload, h]
  refine ⟨?_, ⟨_, hu, rfl, rfl, rfl, rfl, rfl, rfl⟩, ?_⟩
  · rw [load_resident host e.clip_model_name (unload s).1 _ hu]
    simp
  · intro m2 hm
    rw [load_resident host m2 (unload s).1 _ hu]
    simp [hm]

/-- C1 (code bug): `shared.state.end()` stands after the try/except rather
than in a finally block, so when the dispatched fast routine raises a
`TypeError` — an exception class matched by neither except clause — the
job-begin signal is emitted but no job-end signal is, and the exception
propagates out of `image_to_prompt`. -/
theorem image_to_prompt_uncaught_exception_skips_job_end :
    (image_to_prompt crashWorld img0 "fast" "ViT-L-14/openai"
      session0).2.1.count Event.stateBegin = 1 ∧
    (image_to_prompt crashWorld img0 "fast" "ViT-L-14/openai"
      session0).2.1.count Event.stateEnd = 0 ∧
    (image_to_prompt crashWorld img0 "fast" "ViT-L-14/openai" session0).2.2 =
      Except.error (Exc.otherError "TypeError" "unsupported operand type") :=
  ⟨rfl, rfl, rfl⟩

/-- C2 (code bug): a mode outside the four recognized values matches no
branch of the dispatch, so the local `prompt` is never assigned and the
final `return prompt` raises `UnboundLocalError` instead of returning a
defined error value (the job-end signal does run, as the raise happens at
the return statement after the try/except). -/
theorem image_to_prompt_unknown_mode_unbound_local :
    (image_to_prompt okWorld img0 "magic" "ViT-L-14/openai" session0).2.2 =
      Except.error (Exc.otherError "UnboundLocalError"
        "local variable prompt referenced before assignment") ∧
    (image_to_prompt okWorld img0 "magic" "ViT-L-14/openai"
      session0).2.1.count Event.stateEnd = 1 :=
  ⟨rfl, rfl⟩

/-- C3: whenever the dispatched routine raises
`torch.cuda.OutOfMemoryError`, `image_to_prompt` catches it locally, returns
the sentinel string Ran out of VRAM (no exception propagates), and logs the
underlying error. -/
theorem image_to_prompt_oom_returns_sentinel
    (w : World) (image img2 : PILImage) (mode name m : String) (s : Session)
    (hc : w.convert image = Except.ok img2)
    (hd : dispatch w mode img2 = Except.error (Exc.cudaOOM m)) :
    (image_to_prompt w image mode name s).2.2 =
      Except.ok "Ran out of VRAM" ∧
    Event.printMsg m ∈ (image_to_prompt w image mode name s).2.1 := by
  have ht : (tryBody w image mode name s).2.2 =
      Except.error (Exc.cudaOOM m) := by
    rw [tryBody_result, hc]
    exact hd
  unfold image_to_prompt
  rcases hres : tryBody w image mode name s with ⟨s2, ev2, r2⟩
  rw [hres] at ht
  have hr : r2 = Except.error (Exc.cudaOOM m) := ht
  subst hr
  exact ⟨rfl, by simp [finishPrompt]⟩

/-- Witness for C3: the provider stub whose fast routine raises an
out-of-memory condition, matching the example in the spec. -/
theorem image_to_prompt_oom_returns_sentinel_witness :
    oomWorld.convert img0 = Except.ok (convertRGB img0) ∧
    dispatch oomWorld "fast" (convertRGB img0) =
      Except.error (Exc.cudaOOM "CUDA out of memory") ∧
    (image_to_prompt oomWorld img0 "fast" "ViT-L-14/openai" session0).2.2 =
      Except.ok "Ran out of VRAM" ∧
    Event.printMsg "CUDA out of memory" ∈
      (image_to_prompt oomWorld img0 "fast" "ViT-L-14/openai" session0).2.1 :=
  ⟨rfl, rfl,
    image_to_prompt_oom_returns_sentinel oomWorld img0 (convertRGB img0)
      "fast" "ViT-L-14/openai" "CUDA out of memory" session0 rfl rfl⟩

/-- C4: whenever the dispatched routine raises a `RuntimeError` that is not
the out-of-memory condition, `image_to_prompt` catches it locally, returns a
string naming the exception class (no exception propagates), and logs the
underlying error. -/
theorem image_to_prompt_runtime_error_names_category
    (w : World) (image img2 : PILImage) (mode name ty m : String)
    (s : Session)
    (hc : w.convert image = Except.ok img2)
    (hd : dispatch w mode img2 = Except.error (Exc.runtimeError ty m)) :
    (image_to_prompt w image mode name s).2.2 =
      Except.ok ("Exception " ++ ty) ∧
    Event.printMsg m ∈ (image_to_prompt w image mode name s).2.1 := by
  have ht : (tryBody w image mode name s).2.2 =
      Except.error (Exc.runtimeError ty m) := by
    rw [tryBody_result, hc]
    exact hd
  unfold image_to_prompt
  rcases hres : tryBody w image mode name s with ⟨s2, ev2, r2⟩
  rw [hres] at ht
  have hr : r2 = Except.error (Exc.runtimeError ty m) := ht
  subst hr
  exact ⟨rfl, by simp [finishPrompt]⟩

/-- Witness for C4: the provider stub whose fast routine raises a plain
`RuntimeError`. -/
theorem image_to_prompt_runtime_error_names_category_witness :
    rteWorld.convert img0 = Except.ok (convertRGB img0) ∧
    dispatch rteWorld "fast" (convertRGB img0) =
      Except.error (Exc.runtimeError "RuntimeError"
        "mat1 and mat2 shapes cannot be multiplied") ∧
    (image_to_prompt rteWorld img0 "fast" "ViT-L-14/openai" session0).2.2 =
      Except.ok ("Exception " ++ "RuntimeError") ∧
    Event.printMsg "mat1 and mat2 shapes cannot be multiplied" ∈
      (image_to_prompt rteWorld img0 "fast" "ViT-L-14/openai" session0).2.1 :=
  ⟨rfl, rfl,
    image_to_prompt_runtime_error_names_category rteWorld img0
      (convertRGB img0) "fast" "ViT-L-14/openai" "RuntimeError"
      "mat1 and mat2 shapes cannot be multiplied" session0 rfl rfl⟩

/-- C9: when the host runs in low/medium-VRAM mode, `image_to_prompt` emits
the offload request and the memory-reclamation pass (positions 2 and 3,
right after the begin/job signals) strictly before any engine-loading event
(construction or vision-model reload). -/
theorem image_to_prompt_offload_before_engine_load
    (w : World) (image : PILImage) (mode name : String) (s : Session)
    (h : (w.host.cmd_opts.lowvram || w.host.cmd_opts.medvram) = true) :
    (image_to_prompt w image mode name s).2.1.get? 2 =
      some Event.sendEverythingToCpu ∧
    (image_to_prompt w image mode name s).2.1.get? 3 =
      some Event.torchGc ∧
    ∀ j e, (image_to_prompt w image mode name s).2.1.get? j = some e →
      e.isEngineLoad = true → 3 < j := by
  obtain ⟨tail, htail, htl⟩ :=
    finishPrompt_events (tryBody w image mode name s)
  have hev : (image_to_prompt w image mode name s).2.1 =
      Event.stateBegin :: Event.setJob "interrogate" ::
      Event.sendEverythingToCpu :: Event.torchGc ::
      ((load w.host name s).2 ++ tail) := by
    show (finishPrompt (tryBody w image mode name s)).2.1 = _
    rw [htail, tryBody_events, h]
    simp
  refine ⟨by rw [hev]; rfl, by rw [hev]; rfl, ?_⟩
  intro j e hj hload
  rcases j with _ | (_ | (_ | (_ | j)))
  · rw [hev] at hj
    simp at hj
    subst hj
    simp [Event.isEngineLoad] at hload
  · rw [hev] at hj
    simp at hj
    subst hj
    simp [Event.isEngineLoad] at hload
  · rw [hev] at hj
    simp at hj
    subst hj
    simp [Event.isEngineLoad] at hload
  · rw [hev] at hj
    simp at hj
    subst hj
    simp [Event.isEngineLoad] at hload
  · omega

/-- Witness for C9: the low-VRAM-flagged host with the fixed caption
provider. -/
theorem image_to_prompt_offload_before_engine_load_witness :
    (lowWorld.host.cmd_opts.lowvram || lowWorld.host.cmd_opts.medvram)
      = true ∧
    (image_to_prompt lowWorld img0 "best" "ViT-L-14/openai"
      session0).2.1.get? 2 = some Event.sendEverythingToCpu ∧
    (image_to_prompt lowWorld img0 "best" "ViT-L-14/openai"
      session0).2.1.get? 3 = some Event.torchGc ∧
    ∀ j e, (image_to_prompt lowWorld img0 "best" "ViT-L-14/openai"
      session0).2.1.get? j = some e → e.isEngineLoad = true → 3 < j :=
  ⟨by decide,
    image_to_prompt_offload_before_engine_load lowWorld img0 "best"
      "ViT-L-14/openai" session0 (by decide)⟩

/-- The keys of one ranking dict are exactly the shortlisted labels, and the
values exactly the similarity scores of those labels, whenever the provider
returns one score per queried label. -/
lemma rankDict_keys_scores (a : Analyzer) (f : Features) (top : List String)
    (h : (a.similarities f top).length = top.length) :
    (rankDict a f top).map Prod.fst = top ∧
    (rankDict a f top).map Prod.snd = a.similarities f top :=
  ⟨List.map_fst_zip top (a.similarities f top) h.symm.le,
    List.map_snd_zip top (a.similarities f top) h.le⟩

/-- C8: `image_analysis` computes one feature embedding, and for each of the
five categories independently first selects the top 5 labels and then scores
exactly that shortlist: each returned mapping has as keys exactly the top-5
labels of its category and as values exactly the similarities of that
shortlist (given that the provider returns one score per queried label). -/
theorem image_analysis_scores_exactly_top5
    (host : Host) (a : Analyzer) (image : PILImage) (name : String)
    (s : Session) (f : Features)
    (hf : f = a.image_to_features (convertRGB image))
    (h1 : (a.similarities f (a.mediums_rank f 5)).length =
      (a.mediums_rank f 5).length)
    (h2 : (a.similarities f (a.artists_rank f 5)).length =
      (a.artists_rank f 5).length)
    (h3 : (a.similarities f (a.movements_rank f 5)).length =
      (a.movements_rank f 5).length)
    (h4 : (a.similarities f (a.trendings_rank f 5)).length =
      (a.trendings_rank f 5).length)
    (h5 : (a.similarities f (a.flavors_rank f 5)).length =
      (a.flavors_rank f 5).length) :
    ((image_analysis host a image name s).2.2.1.map Prod.fst =
        a.mediums_rank f 5 ∧
      (image_analysis host a image name s).2.2.1.map Prod.snd =
        a.similarities f (a.mediums_rank f 5)) ∧
    ((image_analysis host a image name s).2.2.2.1.map Prod.fst =
        a.artists_rank f 5 ∧
      (image_analysis host a image name s).2.2.2.1.map Prod.snd =
        a.similarities f (a.artists_rank f 5)) ∧
    ((image_analysis host a image name s).2.2.2.2.1.map Prod.fst =
        a.movements_rank f 5 ∧
      (image_analysis host a image name s).2.2.2.2.1.map Prod.snd =
        a.similarities f (a.movements_rank f 5)) ∧
    ((image_analysis host a image name s).2.2.2.2.2.1.map Prod.fst =
        a.trendings_rank f 5 ∧
      (image_analysis host a image name s).2.2.2.2.2.1.map Prod.snd =
        a.similarities f (a.trendings_rank f 5)) ∧
    ((image_analysis host a image name s).2.2.2.2.2.2.map Prod.fst =
        a.flavors_rank f 5 ∧
      (image_analysis host a image name s).2.2.2.2.2.2.map Prod.snd =
        a.similarities f (a.flavors_rank f 5)) := by
  subst hf
  exact ⟨rankDict_keys_scores a _ _ h1, rankDict_keys_scores a _ _ h2,
    rankDict_keys_scores a _ _ h3, rankDict_keys_scores a _ _ h4,
    rankDict_keys_scores a _ _ h5⟩

/-- A concrete analysis provider: a one-component embedding, fixed small
label vocabularies per category, and a similarity that scores every queried
label with 1 (hence one score per label). -/
def stubAnalyzer : Analyzer :=
  { image_to_features := fun i => [Int.ofNat i.data]
    mediums_rank := fun _ _ =>
      ["oil painting", "watercolor", "ink sketch", "photograph", "3d render"]
    artists_rank := fun _ _ =>
      ["artist one", "artist two", "artist three", "artist four",
        "artist five"]
    movements_rank := fun _ _ =>
      ["impressionism", "cubism", "baroque", "surrealism", "pop art"]
    trendings_rank := fun _ _ =>
      ["artstation", "behance", "cgsociety", "deviantart", "unreal engine"]
    flavors_rank := fun _ _ =>
      ["highly detailed", "sharp focus", "studio light", "digital painting",
        "8k"]
    similarities := fun _ ls => ls.map (fun _ => 1) }

/-- The stub embedding of the test image. -/
def stubFeatures : Features :=
  stubAnalyzer.image_to_features (convertRGB img0)

/-- Witness for C8 on the stub provider and test image. -/
theorem image_analysis_scores_exactly_top5_witness :
    stubFeatures = stubAnalyzer.image_to_features (convertRGB img0) ∧
    (((image_analysis host0 stubAnalyzer img0 "ViT-L-14/openai"
        session0).2.2.1.map Prod.fst =
          stubAnalyzer.mediums_rank stubFeatures 5 ∧
      (image_analysis host0 stubAnalyzer img0 "ViT-L-14/openai"
        session0).2.2.1.map Prod.snd =
          stubAnalyzer.similarities stubFeatures
            (stubAnalyzer.mediums_rank stubFeatures 5)) ∧
    ((image_analysis host0 stubAnalyzer img0 "ViT-L-14/openai"
        session0).2.2.2.1.map Prod.fst =
          stubAnalyzer.artists_rank stubFeatures 5 ∧
      (image_analysis host0 stubAnalyzer img0 "ViT-L-14/openai"
        session0).2.2.2.1.map Prod.snd =
          stubAnalyzer.similarities stubFeatures
            (stubAnalyzer.artists_rank stubFeatures 5)) ∧
    ((image_analysis host0 stubAnalyzer img0 "ViT-L-14/openai"
        session0).2.2.2.2.1.map Prod.fst =
          stubAnalyzer.movements_rank stubFeatures 5 ∧
      (image_analysis host0 stubAnalyzer img0 "ViT-L-14/openai"
        session0).2.2.2.2.1.map Prod.snd =
          stubAnalyzer.similarities stubFeatures
            (stubAnalyzer.movements_rank stubFeatures 5)) ∧
    ((image_analysis host0 stubAnalyzer img0 "ViT-L-14/openai"
        session0).2.2.2.2.2.1.map Prod.fst =
          stubAnalyzer.trendings_rank stubFeatures 5 ∧
      (image_analysis host0 stubAnalyzer img0 "ViT-L-14/openai"
        session0).2.2.2.2.2.1.map Prod.snd =
          stubAnalyzer.similarities stubFeatures
            (stubAnalyzer.trendings_rank stubFeatures 5)) ∧
    ((image_analysis host0 stubAnalyzer img0 "ViT-L-14/openai"
        session0).2.2.2.2.2.2.map Prod.fst =
          stubAnalyzer.flavors_rank stubFeatures 5 ∧
      (image_analysis host0 stubAnalyzer img0 "ViT-L-14/openai"
        session0).2.2.2.2.2.2.map Prod.snd =
          stubAnalyzer.similarities stubFeatures
            (stubAnalyzer.flavors_rank stubFeatures 5))) :=
  ⟨rfl, image_analysis_scores_exactly_top5 host0 stubAnalyzer img0
    "ViT-L-14/openai" session0 stubFeatures rfl rfl rfl rfl rfl rfl⟩

/-- Witness for C10: a freshly loaded concrete session, offloaded by
`unload`, then `load` called again with the same bound model name. -/
theorem load_same_model_after_unload_noop_witness :
    (load host0 "ViT-L-14/openai" session0).1.ci =
      some (constructEngine host0 "ViT-L-14/openai" 0) ∧
    (load host0 (constructEngine host0 "ViT-L-14/openai" 0).clip_model_name
      (unload (load host0 "ViT-L-14/openai" session0).1).1 =
      ((unload (load host0 "ViT-L-14/openai" session0).1).1, []) ∧
    (∃ e2, (unload (load host0 "ViT-L-14/openai" session0).1).1.ci =
        some e2 ∧
      e2.id = (constructEngine host0 "ViT-L-14/openai" 0).id ∧
      e2.clip_model_name =
        (constructEngine host0 "ViT-L-14/openai" 0).clip_model_name ∧
      e2.blip_device = Device.cpu ∧ e2.clip_device = Device.cpu ∧
      e2.blip_offloaded = true ∧ e2.clip_offloaded = true) ∧
    (∀ m2, m2 ≠ (constructEngine host0 "ViT-L-14/openai" 0).clip_model_name →
      (load host0 m2
        (unload (load host0 "ViT-L-14/openai" session0).1).1).2 =
        [Event.loadClipModel m2])) :=
  ⟨rfl, load_same_model_after_unload_noop host0
    (load host0 "ViT-L-14/openai" session0).1
    (constructEngine host0 "ViT-L-14/openai" 0) rfl⟩
